import Mathlib

/-!
Verification development for the plant-breeding chatbot repository.

The definitions below are a shallow embedding of the Python sources:
* `src/src/config/chatbot_v2/tools.py` (fact store, keyword extractor,
  answer dispatcher),
* `src/src/config/chatbot_tools.py` (trait similarity and hybridization
  prediction tools),
* `src/src/config/chatbot_v2/api.py` (the `/api/chat` HTTP handler).

Python machine-level primitives are modelled explicitly: `str in str`
substring tests, `str.split()`, `str.title()`, `sorted(..., reverse=True)`
(a stable sort), `dict.fromkeys` deduplication, thousands-separator
formatting `f"{n:,}"`, and `round` (banker's rounding, on exact rationals
in place of IEEE floats).
-/

/-- Python list-prefix test on character lists (helper for substring test). -/
def chPref : List Char → List Char → Bool
  | [], _ => true
  | _ :: _, [] => false
  | a :: as, b :: bs => a == b && chPref as bs

/-- Substring occurrence test on character lists. -/
def chSub : List Char → List Char → Bool
  | n, [] => chPref n []
  | n, c :: t => chPref n (c :: t) || chSub n t

/-- Python `needle in hay` for strings. -/
def inStr (needle hay : String) : Bool := chSub needle.data hay.data

/-- Python `str.lower()` (ASCII case mapping, like `str.lower` on this data). -/
def pyLower (s : String) : String := String.mk (s.data.map Char.toLower)

/-- Helper for `pySplit`: `cur` is the reversed current token. -/
def pyWordsAux (cur : List Char) : List Char → List String
  | [] => if cur.isEmpty then [] else [String.mk cur.reverse]
  | c :: rest =>
      if c.isWhitespace then
        if cur.isEmpty then pyWordsAux [] rest
        else String.mk cur.reverse :: pyWordsAux [] rest
      else pyWordsAux (c :: cur) rest

/-- Python `str.split()`: split on whitespace runs, dropping empty pieces. -/
def pySplit (s : String) : List String := pyWordsAux [] s.data

/-- Python `str.strip()`: drop leading and trailing whitespace. -/
def pyStrip (s : String) : String :=
  String.mk (((s.data.dropWhile Char.isWhitespace).reverse.dropWhile Char.isWhitespace).reverse)

/-- Fuelled helper for `pyReplace` (`fuel` is the list length, so the fuel
never runs out; structural recursion keeps it kernel-reducible). -/
def replaceFuel (pat rep : List Char) : Nat → List Char → List Char
  | _, [] => []
  | 0, l => l
  | fuel + 1, c :: rest =>
      if chPref pat (c :: rest) && !pat.isEmpty then
        rep ++ replaceFuel pat rep (fuel - (pat.length - 1)) (List.drop (pat.length - 1) rest)
      else c :: replaceFuel pat rep fuel rest

/-- Python `str.replace(pat, rep)`: replace non-overlapping occurrences
left to right (used here only with non-empty patterns). -/
def pyReplace (s pat rep : String) : String :=
  String.mk (replaceFuel pat.data rep.data s.data.length s.data)

/-- Helper for `pyDedup` carrying the set of names already seen. -/
def pyDedupAux (seen : List String) : List String → List String
  | [] => []
  | x :: xs => if x ∈ seen then pyDedupAux seen xs else x :: pyDedupAux (x :: seen) xs

/-- Python `list(dict.fromkeys(l))`: deduplicate keeping first occurrences. -/
def pyDedup (l : List String) : List String := pyDedupAux [] l

/-- Stable insertion (helper for the model of Python `sorted`). -/
def stInsert (le : α → α → Bool) (x : α) : List α → List α
  | [] => [x]
  | y :: ys => if le x y then x :: y :: ys else y :: stInsert le x ys

/-- Python `sorted(l, key=k, reverse=True)`: stable, descending by key. -/
def pySortedDesc (key : α → Nat) (l : List α) : List α :=
  l.foldr (stInsert (fun a b => decide (key b ≤ key a))) []

/-- Groups a reversed digit list into 3-digit chunks separated by commas. -/
def commaChunks : List Char → List Char
  | a :: b :: c :: rest =>
      if rest = [] then [a, b, c] else a :: b :: c :: ',' :: commaChunks rest
  | rest => rest

/-- Python `f"{n:,}"`: decimal digits with thousands separators. -/
def fmtComma (n : Nat) : String :=
  String.mk (commaChunks (toString n).data.reverse).reverse

/-- Helper for `pyTitle`: the flag records whether the previous char was a letter. -/
def pyTitleAux : Bool → List Char → List Char
  | _, [] => []
  | prevAlpha, c :: rest =>
      (if c.isAlpha then (if prevAlpha then c.toLower else c.toUpper) else c)
        :: pyTitleAux c.isAlpha rest

/-- Python `str.title()`: capitalize the first letter of each word. -/
def pyTitle (s : String) : String := String.mk (pyTitleAux false s.data)

/-- Rounds a rational to the nearest integer, ties to even (Python `round`). -/
def roundHalfEven (x : ℚ) : ℤ :=
  let f : ℤ := ⌊x⌋
  let frac : ℚ := x - f
  if frac < 1/2 then f
  else if 1/2 < frac then f + 1
  else if f % 2 = 0 then f else f + 1

/-- Python `round(x, 2)` on exact rationals. -/
def pyRound2 (x : ℚ) : ℚ := (roundHalfEven (x * 100) : ℚ) / 100

/-! ## Fact store of `chatbot_v2/tools.py` -/

/-- The `resistance` sub-dictionary of a plant record. -/
structure Resistance where
  drought : Nat
  salinity : Nat
  disease : Nat
deriving DecidableEq, Repr

/-- A record of `PLANTS_DATA` in `chatbot_v2/tools.py`. -/
structure Plant where
  id : Nat
  name : String
  commonName : String
  icon : String
  genomeSize : Nat
  rainfall : String
  temperature : String
  droughtTolerance : String
  resistance : Resistance
  optimalZone : String
  yieldPotential : Nat
  geneticDiversity : Nat
deriving DecidableEq, Repr

/-- The static plant catalog `PLANTS_DATA`. -/
def PLANTS_DATA : List Plant := [
  { id := 1, name := "Triticum aestivum", commonName := "Bread Wheat", icon := "🌾",
    genomeSize := 17000, rainfall := "400-600mm", temperature := "15-25°C",
    droughtTolerance := "Moderate",
    resistance := { drought := 6, salinity := 4, disease := 7 },
    optimalZone := "Northern", yieldPotential := 8, geneticDiversity := 7 },
  { id := 2, name := "Hordeum vulgare", commonName := "Barley", icon := "🌾",
    genomeSize := 5100, rainfall := "300-500mm", temperature := "12-22°C",
    droughtTolerance := "High",
    resistance := { drought := 8, salinity := 7, disease := 6 },
    optimalZone := "High Plateau", yieldPotential := 7, geneticDiversity := 6 },
  { id := 3, name := "Zea mays", commonName := "Corn", icon := "🌽",
    genomeSize := 2300, rainfall := "500-800mm", temperature := "20-30°C",
    droughtTolerance := "Low",
    resistance := { drought := 4, salinity := 3, disease := 5 },
    optimalZone := "Northern", yieldPotential := 9, geneticDiversity := 8 },
  { id := 4, name := "Sorghum bicolor", commonName := "Sorghum", icon := "🌾",
    genomeSize := 730, rainfall := "400-600mm", temperature := "25-35°C",
    droughtTolerance := "Very High",
    resistance := { drought := 9, salinity := 6, disease := 7 },
    optimalZone := "Sahara", yieldPotential := 7, geneticDiversity := 8 },
  { id := 5, name := "Triticum durum", commonName := "Durum Wheat", icon := "🌾",
    genomeSize := 12000, rainfall := "350-550mm", temperature := "15-25°C",
    droughtTolerance := "Moderate",
    resistance := { drought := 7, salinity := 5, disease := 6 },
    optimalZone := "High Plateau", yieldPotential := 7, geneticDiversity := 6 },
  { id := 6, name := "Medicago sativa", commonName := "Alfalfa", icon := "🌿",
    genomeSize := 900, rainfall := "450-750mm", temperature := "15-28°C",
    droughtTolerance := "Moderate",
    resistance := { drought := 7, salinity := 6, disease := 7 },
    optimalZone := "Northern", yieldPotential := 8, geneticDiversity := 7 }
]

/-- A record of `ZONES_DATA`; `suitability` keeps the float's display text. -/
structure ZoneRec where
  name : String
  rainfall : String
  temperature : String
  soil : String
  bestPlants : List String
  suitability : String
deriving DecidableEq, Repr

/-- The static zone catalog `ZONES_DATA`. -/
def ZONES_DATA : List ZoneRec := [
  { name := "Northern", rainfall := "400-800mm", temperature := "10-30°C",
    soil := "Clay-loam, fertile",
    bestPlants := ["Bread Wheat", "Corn", "Alfalfa"], suitability := "8.5" },
  { name := "High Plateau", rainfall := "200-400mm", temperature := "5-35°C",
    soil := "Sandy-loam, alkaline",
    bestPlants := ["Barley", "Durum Wheat", "Sorghum"], suitability := "7.2" },
  { name := "Sahara", rainfall := "50-200mm", temperature := "15-45°C",
    soil := "Sandy, poor organic matter",
    bestPlants := ["Sorghum"], suitability := "4.8" }
]

/-! ## Keyword extractor of `chatbot_v2/tools.py` -/

/-- The local `PLANT_ALIASES` table inside `extract_keywords`. -/
def PLANT_ALIASES : List (String × List String) := [
  ("wheat", ["wheat", "blé", "قمح", "bread wheat", "durum wheat", "kamh", "el kamh", "قمح الصلب"]),
  ("barley", ["barley", "orge", "شعير", "ch3ir", "el ch3ir", "chaîr"]),
  ("corn", ["corn", "maize", "maïs", "ذرة", "zea", "dra", "el dra", "درا"]),
  ("sorghum", ["sorghum", "sorgo", "ذرة رفيعة", "millet", "draa", "el draa"]),
  ("alfalfa", ["alfalfa", "luzerne", "فصة", "lucerne", "fsa", "el fsa", "fessa", "الفصة"])
]

/-- The local `trait_keywords` table inside `extract_keywords`. -/
def trait_keywords : List (String × List String) := [
  ("drought", ["drought", "dry", "sécheresse", "sec", "جفاف", "jfaf", "ybes", "9e7t", "laq7at", "kanch"]),
  ("salinity", ["salinity", "salt", "salinité", "sel", "ملوحة", "mel7", "lmel7", "salti"]),
  ("disease", ["disease", "resistance", "maladie", "résistance", "مرض", "مقاومة", "mradh", "lmradh", "mouqawama"]),
  ("yield", ["yield", "production", "rendement", "إنتاج", "intaj", "production", "mrdoud", "rendement"]),
  ("genome", ["genome", "génome", "جينوم", "jinoum", "genes"]),
  ("rainfall", ["rain", "rainfall", "pluie", "précipitation", "أمطار", "chta", "chtaa", "el chta", "lmtar"]),
  ("temperature", ["temperature", "temp", "température", "حرارة", "s5ana", "broudh", "darja"])
]

/-- The local `breeding_keywords` list inside `extract_keywords`. -/
def breeding_keywords : List String :=
  ["hybrid", "cross", "breed", "hybridization", "croisement", "تهجين",
   "genetics", "inherit", "gene", "chromosome", "mendel", "f1", "f2",
   "pollination", "compatibility", "backcross", "marker",
   "tahdjin", "tahjin", "khalit", "5alit", "mix", "tazwij", "t\x27zwij"]

/-- The structured intent dictionary returned by `extract_keywords`
(`qtype` embeds the dict key `"type"`). -/
structure Intent where
  plants : List String
  zones : List String
  traits : List String
  qtype : String
  is_breeding : Bool
  original : String
deriving DecidableEq, Repr

/-- Whether one plant record matches the lowercased question: direct
common/scientific name substring, per-word token match, or an alias group
whose base name occurs in the common name (the per-plant alias loop of
`extract_keywords`, which appends each plant at most once). -/
def plantMatches (q : String) (p : Plant) : Bool :=
  let common_lower := pyLower p.commonName
  let name_lower := pyLower p.name
  (inStr common_lower q || inStr name_lower q ||
    (pySplit common_lower).any (fun w => inStr w q) ||
    (pySplit name_lower).any (fun w => inStr w q)) ||
  PLANT_ALIASES.any (fun ba =>
    ba.2.any (fun al => inStr al q) && inStr ba.1 common_lower)

/-- `extract_keywords`, parametrized by the static plant table it reads. -/
def extract_keywords_data (PLANTS : List Plant) (question : String) : Intent :=
  let q := pyLower question
  let plants := pyDedup ((PLANTS.filter (plantMatches q)).map (fun p => p.commonName))
  let zones :=
    (if ["northern", "north", "coastal", "nord", "côtier", "شمال", "chamal", "ch3mal", "tell", "sahel"].any
        (fun w => inStr w q) then ["Northern"] else []) ++
    (if ["plateau", "high plateau", "hauts plateaux", "الهضاب", "hadhab", "h\x27dhab", "hdhab"].any
        (fun w => inStr w q) then ["High Plateau"] else []) ++
    (if ["sahara", "southern", "south", "desert", "sud", "صحراء", "جنوب", "sahra", "s7ara", "jnoub"].any
        (fun w => inStr w q) then ["Sahara"] else [])
  let traits := (trait_keywords.filter (fun tk => tk.2.any (fun kw => inStr kw q))).map (fun tk => tk.1)
  let is_breeding := breeding_keywords.any (fun kw => inStr kw q)
  let qtype0 : String :=
    if ["best", "recommend", "meilleur", "recommand", "أفضل", "نصح", "a7san", "khir", "khayr", "nsah", "nsi7a",
        "nebta", "nabta", "zar3a", "zra3a", "nabat"].any (fun w => inStr w q) then "recommendation"
    else if ["rank", "ranking", "position", "classement", "ترتيب", "tartib", "mertba"].any
        (fun w => inStr w q) then "ranking"
    else if ["compare", "vs", "versus", "comparer", "مقارنة", "9arn", "qarn", "mouqarana"].any
        (fun w => inStr w q) then "comparison"
    else if ["what", "tell", "about", "info", "describe", "qu\x27est", "quoi", "ماذا", "ما هو",
        "wach", "wash", "chkoun", "shkoun", "kifech", "kifach", "3lach", "3lah"].any
        (fun w => inStr w q) then "what"
    else if ["characteristic", "trait", "property", "caractéristique", "propriété", "خصائص",
        "khasa2is", "khasa\x27is", "sfat", "sifat"].any (fun w => inStr w q) then "characteristics"
    else "general"
  let qtype1 :=
    if decide ((pySplit q).length ≤ 2) && (!plants.isEmpty || !traits.isEmpty || !zones.isEmpty) then
      (if !plants.isEmpty then "what" else if !traits.isEmpty then "ranking" else qtype0)
    else qtype0
  let qtype2 := if is_breeding then "breeding" else qtype1
  { plants := plants, zones := zones, traits := traits, qtype := qtype2,
    is_breeding := is_breeding, original := question }

/-- `extract_keywords` applied to the module-level `PLANTS_DATA` table. -/
def extract_keywords (question : String) : Intent :=
  extract_keywords_data PLANTS_DATA question

/-- State-threading view of a call to `extract_keywords`: the module-level
plant table is the mutable state a Python call could in principle update;
the function only reads it. -/
def extract_keywords_st (question : String) (tbl : List Plant) : Intent × List Plant :=
  (extract_keywords_data tbl question, tbl)

/-! ## Breeding knowledge base of `chatbot_v2/tools.py`
(the pieces the dispatcher renders) -/

/-- `BREEDING_KNOWLEDGE["hybridization"]["definition"]`. -/
def hybridization_definition : String :=
  "Hybridization is the process of crossing two genetically different plants to combine desirable traits from both parents."

/-- `BREEDING_KNOWLEDGE["hybridization"]["types"]`. -/
def hybridization_types : List String := [
  "Intraspecific: Within same species (e.g., Wheat × Wheat varieties)",
  "Interspecific: Between different species (e.g., Wheat × Rye = Triticale)",
  "Intergeneric: Between different genera (rare, requires advanced techniques)"
]

/-- `BREEDING_KNOWLEDGE["hybridization"]["goals"]`. -/
def hybridization_goals : List String := [
  "Increase yield potential",
  "Improve disease/pest resistance",
  "Enhance drought/salinity tolerance",
  "Better nutritional quality",
  "Adapt to climate zones"
]

/-- `BREEDING_KNOWLEDGE["genetic_concepts"]` as an ordered key/value list. -/
def genetic_concepts : List (String × String) := [
  ("dominance", "Dominant traits mask recessive ones in F1 generation"),
  ("mendel_law", "Traits segregate independently in offspring (Mendel\x27s Laws)"),
  ("heterosis", "Hybrid vigor - F1 hybrids often outperform both parents"),
  ("heritability", "Proportion of trait variation due to genetics vs environment"),
  ("linkage", "Genes close on chromosome tend to inherit together")
]

/-- `BREEDING_KNOWLEDGE["breeding_methods"]`. -/
def breeding_methods : List (String × String) := [
  ("mass_selection", "Select best individual plants from population"),
  ("pedigree", "Track family lines, select from each generation"),
  ("backcross", "Cross hybrid back to parent to transfer single trait"),
  ("marker_assisted", "Use DNA markers to identify desirable genes early"),
  ("double_haploid", "Accelerate homozygosity for faster variety development")
]

/-- `BREEDING_KNOWLEDGE["compatibility"]`: key ↦ (success, notes). -/
def compatibility_table : List (String × String × String) := [
  ("wheat_barley", "Low", "Different ploidy levels make crossing difficult"),
  ("wheat_wheat", "High", "Same species, excellent compatibility"),
  ("wheat_rye", "Medium", "Creates Triticale, requires embryo rescue"),
  ("corn_sorghum", "Very Low", "Different genera, nearly impossible naturally"),
  ("same_zone", "High", "Plants from same climate adapt similarly")
]

/-- `BREEDING_KNOWLEDGE["trait_inheritance"]`. -/
def trait_inheritance : List (String × String) := [
  ("drought_tolerance", "Polygenic (multiple genes), partially dominant"),
  ("disease_resistance", "Can be single gene (R genes) or polygenic"),
  ("yield", "Highly polygenic, influenced by environment"),
  ("height", "Semi-dwarf genes (Rht) show partial dominance"),
  ("grain_quality", "Complex inheritance, multiple QTLs involved")
]

/-- `BREEDING_KNOWLEDGE["breeding_timeline"]`. -/
def breeding_timeline : List (String × String) := [
  ("traditional", "8-12 years from cross to variety release"),
  ("marker_assisted", "5-8 years with DNA marker selection"),
  ("doubled_haploid", "4-6 years using DH technology"),
  ("gene_editing", "2-4 years with CRISPR (regulatory pending)")
]

/-- One entry of `ZONE_BREEDING_TIPS`. -/
structure ZoneTips where
  priorities : List String
  best_crosses : String
  challenges : String
deriving DecidableEq, Repr

/-- The `ZONE_BREEDING_TIPS` table. -/
def ZONE_BREEDING_TIPS : List (String × ZoneTips) := [
  ("Northern",
    { priorities := ["Cold tolerance", "High rainfall adaptation", "Disease resistance"],
      best_crosses := "Bread Wheat × Corn (for vigor), Alfalfa × local varieties",
      challenges := "Fungal diseases in wet climate, need resistant genes" }),
  ("High Plateau",
    { priorities := ["Moderate drought tolerance", "Temperature flexibility", "Wide adaptation"],
      best_crosses := "Barley × Durum Wheat varieties, Sorghum for diversification",
      challenges := "Variable climate requires stable genetics" }),
  ("Sahara",
    { priorities := ["Extreme drought tolerance", "Heat resistance", "Low water use"],
      best_crosses := "Sorghum × drought-tolerant varieties, Barley for heat genes",
      challenges := "Very limited water, need deep root systems" })
]

/-! ## Answer dispatcher `answer_question` of `chatbot_v2/tools.py`

The Python function is an ordered cascade of blocks, each of which either
returns an answer string or falls through; blocks that can fall through are
modelled as `Option String`, joined in source order in `answer_question`. -/

/-- `next((p for p in PLANTS_DATA if p["commonName"] == name), None)`. -/
def findPlantByCommon (name : String) : Option Plant :=
  PLANTS_DATA.find? (fun p => p.commonName == name)

/-- Python `max(l, key=key)` (first maximum wins on ties). -/
def pyMaxBy (key : Plant → Nat) : List Plant → Option Plant
  | [] => none
  | h :: t => some (t.foldl (fun acc p => if key p > key acc then p else acc) h)

/-- The compact plant summary of the short-input branch (tools.py:317-321). -/
def shortPlantSummary (plant : Plant) : String :=
  "**" ++ plant.commonName ++ " " ++ plant.icon ++ "**\n" ++
  "• Drought: " ++ toString plant.resistance.drought ++ "/10\n" ++
  "• Yield: " ++ toString plant.yieldPotential ++ "/10\n" ++
  "• Zone: " ++ plant.optimalZone ++ "\n" ++
  "• Genome: " ++ fmtComma plant.genomeSize ++ " Mbp\n"

/-- The drought ranking of the short-input branch (tools.py:328-332). -/
def shortDroughtRanking : String :=
  "**Drought Resistance:**\n" ++
  String.join (((pySortedDesc (fun p => p.resistance.drought) PLANTS_DATA).enum).map
    (fun ip => toString (ip.1 + 1) ++ ". " ++ ip.2.commonName ++ ": " ++
      toString ip.2.resistance.drought ++ "/10\n"))

/-- The yield ranking of the short-input branch (tools.py:333-338). -/
def shortYieldRanking : String :=
  "**Yield Potential:**\n" ++
  String.join (((pySortedDesc (fun p => p.yieldPotential) PLANTS_DATA).enum).map
    (fun ip => toString (ip.1 + 1) ++ ". " ++ ip.2.commonName ++ ": " ++
      toString ip.2.yieldPotential ++ "/10\n"))

/-- The help text of the short-input branch (tools.py:341-347). -/
def shortHelp : String :=
  "I can help with:\n" ++
  "• Just say plant name: \x27wheat\x27, \x27sorghum\x27\n" ++
  "• Or trait: \x27drought\x27, \x27yield\x27\n" ++
  "• Or ask: \x27ranking of sorghum\x27, \x27compare wheat barley\x27\n" ++
  "\nPlants: Wheat, Barley, Corn, Sorghum, Alfalfa"

/-- The short-input block (tools.py:312-347): `≤ 2` tokens. -/
def shortAnswerBlock (kw : Intent) (question : String) : Option String :=
  if (pySplit (pyStrip question)).length ≤ 2 then
    match kw.plants, kw.traits with
    | p0 :: _, [] =>
        match findPlantByCommon p0 with
        | some plant => some (shortPlantSummary plant)
        | none => none
    | [], t0 :: _ =>
        if t0 = "drought" then some shortDroughtRanking
        else if t0 = "yield" then some shortYieldRanking
        else none
    | [], [] => if kw.zones = [] then some shortHelp else none
    | _ :: _, _ :: _ => none
  else none

/-- The hybridization answer of the breeding block (tools.py:352-360). -/
def hybridRender (kw : Intent) : String :=
  "**🧬 Plant Hybridization**\n" ++
  hybridization_definition ++ "\n\n" ++
  "**Types:**\n" ++
  String.join (hybridization_types.map (fun t => "• " ++ t ++ "\n")) ++
  (match kw.plants with
   | p0 :: _ => "\n**For " ++ p0 ++ ":** Check compatibility below!"
   | [] => "")

/-- The pairwise-cross answer of the breeding block (tools.py:363-387). -/
def crossRender (kw : Intent) : String :=
  match kw.plants with
  | pl0 :: pl1 :: _ =>
    let p1_name := pyReplace (pyLower pl0) " " "_"
    let p2_name := pyReplace (pyLower pl1) " " "_"
    let compat_key := p1_name ++ "_" ++ p2_name
    match List.lookup compat_key compatibility_table with
    | some sn =>
        "**" ++ pl0 ++ " × " ++ pl1 ++ " Cross:**\n" ++
        "Success Rate: " ++ sn.1 ++ "\n" ++
        "Notes: " ++ sn.2 ++ "\n"
    | none =>
        match findPlantByCommon pl0, findPlantByCommon pl1 with
        | some p1, some p2 =>
            if p1.optimalZone = p2.optimalZone then
              "**" ++ pl0 ++ " × " ++ pl1 ++ ":**\n" ++
              "✅ Same zone (" ++ p1.optimalZone ++ ") = Good compatibility\n" ++
              "Expected hybrid traits: Combined drought (" ++
                toString ((p1.resistance.drought + p2.resistance.drought) / 2) ++ "/10)\n"
            else
              "**" ++ pl0 ++ " × " ++ pl1 ++ ":**\n" ++
              "⚠️ Different zones = Challenging cross\n" ++
              "Requires adaptation breeding and testing\n"
        | _, _ => ""
  | _ => ""

/-- The genetics answer of the breeding block (tools.py:390-400). -/
def geneticsRender (kw : Intent) : String :=
  "**🧬 Plant Genetics & Inheritance:**\n\n" ++
  (match kw.traits with
   | t0 :: _ =>
       match List.lookup t0 trait_inheritance with
       | some d => "**" ++ pyTitle t0 ++ " Inheritance:**\n" ++ d ++ "\n\n"
       | none => ""
   | [] => "") ++
  "**Key Concepts:**\n" ++
  String.join (genetic_concepts.map
    (fun cd => "• " ++ pyTitle (pyReplace cd.1 "_" " ") ++ ": " ++ cd.2 ++ "\n"))

/-- The breeding-methods answer of the breeding block (tools.py:403-410). -/
def methodsRender : String :=
  "**🔬 Breeding Methods:**\n\n" ++
  String.join (breeding_methods.map
    (fun md => "• **" ++ pyTitle (pyReplace md.1 "_" " ") ++ ":** " ++ md.2 ++ "\n")) ++
  "\n**Timeline:**\n" ++
  String.join (breeding_timeline.map
    (fun ty => "• " ++ pyTitle (pyReplace ty.1 "_" " ") ++ ": " ++ ty.2 ++ "\n"))

/-- The zone-specific breeding answer (tools.py:413-421). -/
def zoneTipsRender (zone_name : String) (tips : ZoneTips) : String :=
  "**Breeding for " ++ zone_name ++ " Zone:**\n\n" ++
  "**Priorities:** " ++ String.intercalate ", " tips.priorities ++ "\n" ++
  "**Recommended Crosses:** " ++ tips.best_crosses ++ "\n" ++
  "**Challenges:** " ++ tips.challenges ++ "\n"

/-- The generic breeding advice (tools.py:424-431). -/
def generalBreedingAdvice : String :=
  "**🌾 Plant Breeding Tips:**\n\n" ++
  "**Goals:** " ++ String.intercalate ", " (hybridization_goals.take 3) ++ "\n\n" ++
  "**Ask me about:**\n" ++
  "• Crossing specific plants: \x27Can I cross wheat with barley?\x27\n" ++
  "• Breeding methods: \x27What are breeding techniques?\x27\n" ++
  "• Trait inheritance: \x27How is drought tolerance inherited?\x27\n" ++
  "• Zone breeding: \x27Best crosses for Sahara zone?\x27\n"

/-- The breeding block (tools.py:350-431); every path returns. -/
def breedingBlock (kw : Intent) (q : String) : String :=
  if inStr "hybrid" q || inStr "hybridization" q then hybridRender kw
  else if inStr "cross" q && decide (kw.plants.length ≥ 2) then crossRender kw
  else if inStr "inherit" q || inStr "gene" q || inStr "genetics" q then geneticsRender kw
  else if inStr "method" q || inStr "technique" q || inStr "how to breed" q then methodsRender
  else
    match kw.zones with
    | z0 :: _ =>
        match List.lookup z0 ZONE_BREEDING_TIPS with
        | some tips => zoneTipsRender z0 tips
        | none => generalBreedingAdvice
    | [] => generalBreedingAdvice

/-- The two-plant comparison rendering (tools.py:440-458), winner lines
by strict greater-than with the second plant on ties. -/
def comparisonRender (p1 p2 : Plant) : String :=
  "**" ++ p1.commonName ++ " vs " ++ p2.commonName ++ "**\n\n" ++
  p1.icon ++ " **" ++ p1.commonName ++ ":**\n" ++
  "  • Drought: " ++ toString p1.resistance.drought ++ "/10\n" ++
  "  • Yield: " ++ toString p1.yieldPotential ++ "/10\n" ++
  "  • Zone: " ++ p1.optimalZone ++ "\n\n" ++
  p2.icon ++ " **" ++ p2.commonName ++ ":**\n" ++
  "  • Drought: " ++ toString p2.resistance.drought ++ "/10\n" ++
  "  • Yield: " ++ toString p2.yieldPotential ++ "/10\n" ++
  "  • Zone: " ++ p2.optimalZone ++ "\n\n" ++
  (if p1.resistance.drought > p2.resistance.drought then
    "✅ " ++ p1.commonName ++ " is better for drought\n"
   else
    "✅ " ++ p2.commonName ++ " is better for drought\n") ++
  (if p1.yieldPotential > p2.yieldPotential then
    "✅ " ++ p1.commonName ++ " has higher yield\n"
   else
    "✅ " ++ p2.commonName ++ " has higher yield\n")

/-- The comparison block (tools.py:434-459). -/
def comparisonBlock (kw : Intent) (q : String) : Option String :=
  if inStr "compare" q || inStr "vs" q || inStr "versus" q || kw.qtype == "comparison" then
    match kw.plants with
    | pl0 :: pl1 :: _ =>
        match findPlantByCommon pl0, findPlantByCommon pl1 with
        | some p1, some p2 => some (comparisonRender p1 p2)
        | _, _ => none
    | _ => none
  else none

/-- The same-zone partners rendering of the better/which block (tools.py:469-474). -/
def betterPartnersRender (plant : Plant) : String :=
  "**For crossing/breeding with " ++ plant.commonName ++ ":**\n\n" ++
  "Best compatibility partners would be plants from similar zones:\n" ++
  String.join (((PLANTS_DATA.filter (fun p =>
      p.optimalZone == plant.optimalZone && p.commonName != plant.commonName)).take 3).map
    (fun p => "• " ++ p.commonName ++ " (same " ++ p.optimalZone ++ " zone, yield: " ++
      toString p.yieldPotential ++ "/10)\n"))

/-- The better/which block (tools.py:462-482). -/
def betterBlock (kw : Intent) (q : String) : Option String :=
  if inStr "better" q || (inStr "which" q && (inStr "one" q || inStr "is" q)) then
    match kw.plants with
    | t0 :: _ =>
        match findPlantByCommon t0 with
        | some plant => some (betterPartnersRender plant)
        | none => none
    | [] =>
        if inStr "drought" q then
          match pyMaxBy (fun p => p.resistance.drought) PLANTS_DATA with
          | some best => some ("✅ **Best for drought:** " ++ best.commonName ++ " (" ++
              toString best.resistance.drought ++ "/10)\n")
          | none => none
        else if inStr "yield" q then
          match pyMaxBy (fun p => p.yieldPotential) PLANTS_DATA with
          | some best => some ("✅ **Best for yield:** " ++ best.commonName ++ " (" ++
              toString best.yieldPotential ++ "/10)\n")
          | none => none
        else none
  else none

/-- The full characteristics dump (tools.py:489-497). -/
def charRender (plant : Plant) : String :=
  "**" ++ plant.commonName ++ " Characteristics:**\n" ++
  "• Genome: " ++ fmtComma plant.genomeSize ++ " Mbp\n" ++
  "• Climate: " ++ plant.temperature ++ ", " ++ plant.rainfall ++ "\n" ++
  "• Drought Resistance: " ++ toString plant.resistance.drought ++ "/10\n" ++
  "• Salinity Resistance: " ++ toString plant.resistance.salinity ++ "/10\n" ++
  "• Disease Resistance: " ++ toString plant.resistance.disease ++ "/10\n" ++
  "• Yield Potential: " ++ toString plant.yieldPotential ++ "/10\n" ++
  "• Optimal Zone: " ++ plant.optimalZone ++ "\n"

/-- The generic characteristics text (tools.py:500-503). -/
def charGenericRender : String :=
  "Available plant characteristics:\n" ++
  "• Genome size, Climate needs, Drought/Salinity/Disease resistance\n" ++
  "• Yield potential, Optimal zone\n\n" ++
  "Ask: \x27What are the characteristics of [plant name]?\x27"

/-- The characteristics block (tools.py:485-504). -/
def charBlock (kw : Intent) (q : String) : Option String :=
  if inStr "characteristic" q || inStr "traits" q || inStr "properties" q then
    match kw.plants with
    | p0 :: _ =>
        match findPlantByCommon p0 with
        | some plant => some (charRender plant)
        | none => none
    | [] => some charGenericRender
  else none

/-- The per-plant ranking block (tools.py:507-521). -/
def rankingBlock (kw : Intent) (q : String) : Option String :=
  if inStr "ranking" q then
    match kw.plants with
    | p0 :: _ =>
        match findPlantByCommon p0 with
        | some plant =>
            let sorted_drought := pySortedDesc (fun p => p.resistance.drought) PLANTS_DATA
            let sorted_yield := pySortedDesc (fun p => p.yieldPotential) PLANTS_DATA
            let drought_rank := sorted_drought.indexOf plant + 1
            let yield_rank := sorted_yield.indexOf plant + 1
            some ("**" ++ plant.commonName ++ " Rankings:**\n" ++
              "• Drought: #" ++ toString drought_rank ++ "/" ++ toString PLANTS_DATA.length ++
                " (" ++ toString plant.resistance.drought ++ "/10)\n" ++
              "• Yield: #" ++ toString yield_rank ++ "/" ++ toString PLANTS_DATA.length ++
                " (" ++ toString plant.yieldPotential ++ "/10)\n" ++
              "• Salinity: " ++ toString plant.resistance.salinity ++ "/10\n" ++
              "• Disease: " ++ toString plant.resistance.disease ++ "/10\n")
        | none => none
    | [] => none
  else none

/-- The plant summary of the trailing cascade (tools.py:527-533). -/
def tailPlantRender (plant : Plant) : String :=
  "**" ++ plant.commonName ++ " (" ++ plant.name ++ ") " ++ plant.icon ++ "**\n" ++
  "- Genome: " ++ fmtComma plant.genomeSize ++ " Mbp\n" ++
  "- Climate: " ++ plant.temperature ++ ", " ++ plant.rainfall ++ " rainfall\n" ++
  "- Drought: " ++ toString plant.resistance.drought ++ "/10 (" ++ plant.droughtTolerance ++ ")\n" ++
  "- Salinity: " ++ toString plant.resistance.salinity ++ "/10\n" ++
  "- Yield: " ++ toString plant.yieldPotential ++ "/10\n" ++
  "- Zone: " ++ plant.optimalZone ++ "\n"

/-- The zone summary of the trailing cascade (tools.py:539-543). -/
def tailZoneRender (zone : ZoneRec) : String :=
  "**" ++ zone.name ++ " Zone**\n" ++
  "- Rainfall: " ++ zone.rainfall ++ "\n" ++
  "- Temperature: " ++ zone.temperature ++ "\n" ++
  "- Best Plants: " ++ String.intercalate ", " zone.bestPlants ++ "\n" ++
  "- Suitability: " ++ zone.suitability ++ "/10\n"

/-- The drought ranking of the trailing cascade (tools.py:547-551). -/
def tailDroughtRanking : String :=
  "**Drought Resistance Rankings:**\n" ++
  String.join (((pySortedDesc (fun p => p.resistance.drought) PLANTS_DATA).enum).map
    (fun ip => toString (ip.1 + 1) ++ ". " ++ ip.2.commonName ++ ": " ++
      toString ip.2.resistance.drought ++ "/10\n"))

/-- The yield ranking of the trailing cascade (tools.py:552-556). -/
def tailYieldRanking : String :=
  "**Yield Rankings:**\n" ++
  String.join (((pySortedDesc (fun p => p.yieldPotential) PLANTS_DATA).enum).map
    (fun ip => toString (ip.1 + 1) ++ ". " ++ ip.2.commonName ++ ": " ++
      toString ip.2.yieldPotential ++ "/10\n"))

/-- The drought list of the trailing trait branch (tools.py:571-574). -/
def tailTraitDrought : String :=
  "**Drought Resistance:**\n" ++
  String.join ((pySortedDesc (fun p => p.resistance.drought) PLANTS_DATA).map
    (fun p => "- " ++ p.commonName ++ ": " ++ toString p.resistance.drought ++ "/10\n"))

/-- The yield list of the trailing trait branch (tools.py:575-578). -/
def tailTraitYield : String :=
  "**Yield Potential:**\n" ++
  String.join ((pySortedDesc (fun p => p.yieldPotential) PLANTS_DATA).map
    (fun p => "- " ++ p.commonName ++ ": " ++ toString p.yieldPotential ++ "/10\n"))

/-- The final fallback help text (tools.py:582-588). -/
def fallbackHelp : String :=
  "I can help with:\n" ++
  "• Plant info: \x27What is wheat?\x27\n" ++
  "• Rankings: \x27What is the ranking of sorghum?\x27\n" ++
  "• Characteristics: \x27What are the characteristics?\x27\n" ++
  "• Comparisons: \x27Compare wheat with barley\x27\n" ++
  "• Best plants: \x27Which is better for drought?\x27\n" ++
  "\nAvailable: Bread Wheat, Barley, Corn, Sorghum, Durum Wheat, Alfalfa"

/-- The trailing `if/elif` cascade plus fallback (tools.py:524-590): the
appended pieces are joined; if nothing was appended, the fallback shows. -/
def tailAnswer (kw : Intent) (q : String) : String :=
  let resp : String :=
    match kw.plants with
    | p0 :: _ =>
        (match findPlantByCommon p0 with
         | some plant => tailPlantRender plant
         | none => "")
    | [] =>
        match kw.zones with
        | z0 :: _ =>
            (match ZONES_DATA.find? (fun z => z.name == z0) with
             | some zone => tailZoneRender zone
             | none => "")
        | [] =>
            if kw.qtype == "ranking" then
              (if kw.traits.contains "drought" then tailDroughtRanking
               else if kw.traits.contains "yield" then tailYieldRanking
               else "")
            else if kw.qtype == "recommendation" then
              (if inStr "drought" q then
                (match pyMaxBy (fun p => p.resistance.drought) PLANTS_DATA with
                 | some best => "**Best for Drought:** " ++ best.commonName ++ " (" ++
                     toString best.resistance.drought ++ "/10)\n"
                 | none => "")
               else
                match kw.zones with
                | z0 :: _ =>
                    (match ZONES_DATA.find? (fun z => z.name == z0) with
                     | some zone => "**Recommended for " ++ zone.name ++ ":** " ++
                         String.intercalate ", " zone.bestPlants ++ "\n"
                     | none => "")
                | [] => "")
            else
              match kw.traits with
              | t0 :: _ =>
                  if t0 = "drought" then tailTraitDrought
                  else if t0 = "yield" then tailTraitYield
                  else ""
              | [] => ""
  if resp = "" then fallbackHelp else resp

/-- The dispatcher `answer_question` (tools.py:305-590): the blocks are
tried in source order; a block that returns ends the cascade. -/
def answer_question (question : String) : String :=
  let kw := extract_keywords question
  let q := pyLower question
  match shortAnswerBlock kw question with
  | some r => r
  | none =>
    if kw.is_breeding then breedingBlock kw q
    else
      match comparisonBlock kw q with
      | some r => r
      | none =>
        match betterBlock kw q with
        | some r => r
        | none =>
          match charBlock kw q with
          | some r => r
          | none =>
            match rankingBlock kw q with
            | some r => r
            | none => tailAnswer kw q

/-! ## Tools of `chatbot_tools.py`: trait similarity and hybridization -/

/-- A record of `SAMPLE_PLANTS` in `chatbot_tools.py`. -/
structure SPlant where
  id : Int
  name : String
  scientific_name : String
  zone : String
  traits : List String
deriving DecidableEq, Repr

/-- The static catalog `SAMPLE_PLANTS`. -/
def SAMPLE_PLANTS : List SPlant := [
  { id := 1, name := "Common Wheat", scientific_name := "Triticum aestivum",
    zone := "Northern",
    traits := ["drought_resistance", "high_yield", "disease_resistance"] },
  { id := 2, name := "Barley", scientific_name := "Hordeum vulgare",
    zone := "Northern",
    traits := ["cold_tolerance", "drought_resistance", "adaptability"] },
  { id := 3, name := "Durum Wheat", scientific_name := "Triticum durum",
    zone := "High Plateau",
    traits := ["high_protein", "drought_resistance", "heat_tolerance"] },
  { id := 4, name := "Sorghum", scientific_name := "Sorghum bicolor",
    zone := "Sahara",
    traits := ["extreme_drought_resistance", "heat_tolerance", "low_water_needs"] }
]

/-- The dictionary returned by `calculate_trait_similarity`; the Python
lists built from sets are modelled as the finite sets themselves, and the
float similarity as an exact rational. -/
structure SimResult where
  shared_traits : Finset String
  similarity : ℚ
  unique_to_a : Finset String
  unique_to_b : Finset String
deriving DecidableEq

/-- `calculate_trait_similarity` (chatbot_tools.py:80-106). -/
def calculate_trait_similarity (plant_a plant_b : SPlant) : SimResult :=
  let traits_a := plant_a.traits.toFinset
  let traits_b := plant_b.traits.toFinset
  let shared_traits := traits_a ∩ traits_b
  let unique_to_a := traits_a \ traits_b
  let unique_to_b := traits_b \ traits_a
  let union_traits := traits_a ∪ traits_b
  let similarity : ℚ :=
    if union_traits.Nonempty then
      (shared_traits.card : ℚ) / (union_traits.card : ℚ) * 100
    else 0
  { shared_traits := shared_traits, similarity := pyRound2 similarity,
    unique_to_a := unique_to_a, unique_to_b := unique_to_b }

/-- `get_plant_details` (chatbot_tools.py:64-77): first id match or `None`. -/
def get_plant_details (plant_id : Int) : Option SPlant :=
  SAMPLE_PLANTS.find? (fun p => p.id == plant_id)

/-- The dictionary returned by `predict_hybridization`
(the fields the claims inspect). -/
structure HybridResult where
  plant_a : String
  plant_b : String
  success_rate : ℤ
  confidence : ℚ
  shared_traits : Finset String
  compatibility : String
  recommendation : String
deriving DecidableEq

/-- `predict_hybridization` (chatbot_tools.py:125-168). -/
def predict_hybridization (plant_a_id plant_b_id : Int) : Option HybridResult :=
  match get_plant_details plant_a_id, get_plant_details plant_b_id with
  | some plant_a, some plant_b =>
      let similarity := calculate_trait_similarity plant_a plant_b
      let zone_bonus : ℚ := if plant_a.zone = plant_b.zone then 15 else 0
      let base_success := similarity.similarity
      let success_rate := min 95 (max 20 (base_success + zone_bonus))
      let compatibility : String :=
        if success_rate ≥ 70 then "High"
        else if success_rate ≥ 50 then "Moderate"
        else "Low"
      let recommendation : String :=
        if success_rate ≥ 70 then "These species show high compatibility for hybridization."
        else if success_rate ≥ 50 then "Moderate compatibility. Additional testing recommended."
        else "Low compatibility. Consider alternative combinations."
      some { plant_a := plant_a.name, plant_b := plant_b.name,
             success_rate := roundHalfEven success_rate,
             confidence := pyRound2 (6/10 + similarity.similarity / 200),
             shared_traits := similarity.shared_traits,
             compatibility := compatibility,
             recommendation := recommendation }
  | _, _ => none

/-! ## The `/api/chat` handler of `chatbot_v2/api.py`

The JSON body is modelled as an optional field map (`None` for an absent
or null body; Python treats an empty dict as falsy too), and the fallible
message processing as an `Except`: the route's `try/except` maps a raised
exception to the 500 response. -/

/-- The JSON response of the chat route together with its HTTP status. -/
structure ApiResponse where
  status : Nat
  error : Option String
  response : Option String
  success : Bool
deriving DecidableEq, Repr

/-- The `chat` route handler (chatbot_v2/api.py:29-61). -/
def chat_handler (data : Option (List (String × String)))
    (process : String → Except String String) : ApiResponse :=
  match data with
  | none =>
      { status := 400, error := some "Message is required", response := none, success := false }
  | some fields =>
      if fields.isEmpty then
        { status := 400, error := some "Message is required", response := none, success := false }
      else
        match List.lookup "message" fields with
        | none =>
            { status := 400, error := some "Message is required", response := none, success := false }
        | some user_message =>
            match process user_message with
            | .ok r =>
                { status := 200, error := none, response := some r, success := true }
            | .error e =>
                { status := 500, error := some ("I encountered an error: " ++ e),
                  response := none, success := false }

/-! ## Specification-side definitions used by the theorems -/

/-- Non-increasing by key along a list (the spec's "sorted non-increasing"). -/
def nonincreasingBy (key : α → Nat) : List α → Bool
  | [] => true
  | [_] => true
  | a :: b :: t => decide (key b ≤ key a) && nonincreasingBy key (b :: t)

/-- Every pair of equal-key elements appears in catalog (index) order
(the spec's "ties broken by catalog order, stable sort"). -/
def tiesInCatalogOrder (key : Plant → Nat) : List Plant → Bool
  | [] => true
  | a :: t =>
      t.all (fun b =>
        !(key a == key b) || decide (PLANTS_DATA.indexOf a < PLANTS_DATA.indexOf b)) &&
      tiesInCatalogOrder key t

/-- A plant record with an empty trait set. -/
def noTraitPlant : SPlant :=
  { id := 0, name := "Traitless", scientific_name := "Traitless",
    zone := "Northern", traits := [] }

/-! ## Arithmetic helper lemmas -/

theorem roundHalfEven_intCast (n : ℤ) : roundHalfEven (n : ℚ) = n := by
  simp [roundHalfEven]

theorem pyRound2_intCast (n : ℤ) : pyRound2 (n : ℚ) = n := by
  rw [pyRound2]
  have h : ((n : ℚ)) * 100 = ((n * 100 : ℤ) : ℚ) := by push_cast; ring
  rw [h, roundHalfEven_intCast]
  push_cast
  field_simp

/-! ## Claim theorems -/

/-- C5: plant lookup is case- and alias-insensitive — the inputs "WHEAT",
"blé" and "قمح" all make the keyword extractor match the same canonical
plant (Bread Wheat, the catalog plant whose aliases they are) as the first
element of its matched-plants list. -/
theorem find_plant_alias_insensitive :
    (extract_keywords "WHEAT").plants.head? = some "Bread Wheat" ∧
    (extract_keywords "blé").plants.head? = some "Bread Wheat" ∧
    (extract_keywords "قمح").plants.head? = some "Bread Wheat" := by decide

/-- C6: for every catalog plant whose common name is a single token and
extracts no trait keywords, the dispatcher answers that name through the
short-input branch with a non-empty summary containing the plant's drought
score; in particular "wheat" yields a summary containing "Drought: 6/10"
and "Zone: Northern". -/
theorem short_input_plant_summary :
    (∀ p ∈ PLANTS_DATA, (pySplit p.commonName).length = 1 →
      (extract_keywords p.commonName).traits = [] →
      shortAnswerBlock (extract_keywords p.commonName) p.commonName =
        some (answer_question p.commonName) ∧
      answer_question p.commonName ≠ "" ∧
      inStr ("Drought: " ++ toString p.resistance.drought ++ "/10")
        (answer_question p.commonName) = true) ∧
    inStr "Drought: 6/10" (answer_question "wheat") = true ∧
    inStr "Zone: Northern" (answer_question "wheat") = true := by decide

/-- C4: the drought ranking (Python `sorted` by `resistance.drought`
descending) contains every catalog plant exactly once, is non-increasing in
the drought score, breaks ties by catalog order, and the rendered rankings
list the plants in that order with 1-based positions. -/
theorem drought_ranking_properties :
    (pySortedDesc (fun p => p.resistance.drought) PLANTS_DATA).length = PLANTS_DATA.length ∧
    (PLANTS_DATA.all (fun p =>
      (pySortedDesc (fun x => x.resistance.drought) PLANTS_DATA).count p == 1)) = true ∧
    nonincreasingBy (fun p => p.resistance.drought)
      (pySortedDesc (fun p => p.resistance.drought) PLANTS_DATA) = true ∧
    tiesInCatalogOrder (fun p => p.resistance.drought)
      (pySortedDesc (fun p => p.resistance.drought) PLANTS_DATA) = true ∧
    answer_question "drought" =
      "**Drought Resistance:**\n1. Sorghum: 9/10\n2. Barley: 8/10\n3. Durum Wheat: 7/10\n4. Alfalfa: 7/10\n5. Bread Wheat: 6/10\n6. Corn: 4/10\n" ∧
    tailDroughtRanking =
      "**Drought Resistance Rankings:**\n1. Sorghum: 9/10\n2. Barley: 8/10\n3. Durum Wheat: 7/10\n4. Alfalfa: 7/10\n5. Bread Wheat: 6/10\n6. Corn: 4/10\n" := by decide

set_option maxRecDepth 4000 in
/-- C2: in the comparison rendering, a per-metric winner line for a plant
appears exactly when its score strictly exceeds the other's, so on equal
scores the second plant is declared winner; and "compare wheat barley"
yields an answer containing both matched plant names and a line starting
with a checkmark declaring the drought winner. -/
theorem comparison_winner_strict_gt :
    (∀ p1 ∈ PLANTS_DATA, ∀ p2 ∈ PLANTS_DATA, p1.commonName ≠ p2.commonName →
      (inStr ("✅ " ++ p1.commonName ++ " is better for drought") (comparisonRender p1 p2) = true ↔
        p2.resistance.drought < p1.resistance.drought) ∧
      (inStr ("✅ " ++ p1.commonName ++ " has higher yield") (comparisonRender p1 p2) = true ↔
        p2.yieldPotential < p1.yieldPotential) ∧
      (p1.resistance.drought = p2.resistance.drought →
        inStr ("✅ " ++ p2.commonName ++ " is better for drought") (comparisonRender p1 p2) = true)) ∧
    inStr "Bread Wheat" (answer_question "compare wheat barley") = true ∧
    inStr "Barley" (answer_question "compare wheat barley") = true ∧
    inStr "\n✅ Barley is better for drought\n" (answer_question "compare wheat barley") = true := by
  decide

/-- C7: any input containing a breeding/genetics keyword is forced to
question type "breeding" with the breeding flag set, regardless of what the
earlier classification steps produced. -/
theorem breeding_keyword_override (question : String)
    (h : breeding_keywords.any (fun kw => inStr kw (pyLower question)) = true) :
    (extract_keywords question).qtype = "breeding" ∧
    (extract_keywords question).is_breeding = true := by
  simp [extract_keywords, extract_keywords_data, h]

/-- Witness for C7 at the concrete input "best hybrid" (whose "best"
keyword would otherwise classify it as a recommendation). -/
theorem breeding_keyword_override_witness :
    (extract_keywords "best hybrid").qtype = "breeding" ∧
    (extract_keywords "best hybrid").is_breeding = true :=
  breeding_keyword_override "best hybrid" (by decide)

/-- C8: the keyword extractor is deterministic and side-effect free — in
the state-threading view where the static plant table is the mutable
state, a call leaves the table unchanged, and a repeated call on the
resulting state returns the same intent and the same table. -/
theorem extract_keywords_pure_idempotent (tbl : List Plant) (text : String) :
    (extract_keywords_st text tbl).2 = tbl ∧
    (extract_keywords_st text ((extract_keywords_st text tbl).2)).1 =
      (extract_keywords_st text tbl).1 ∧
    (extract_keywords_st text ((extract_keywords_st text tbl).2)).2 = tbl :=
  ⟨rfl, rfl, rfl⟩

/-- C3 counterexample: on a plant record with an empty trait set, the
self-similarity is 0, not 100 as the claim states for every record. -/
theorem trait_similarity_self_counterexample :
    (calculate_trait_similarity noTraitPlant noTraitPlant).similarity = 0 ∧
    (calculate_trait_similarity noTraitPlant noTraitPlant).similarity ≠ 100 := by
  have h : (calculate_trait_similarity noTraitPlant noTraitPlant).similarity = 0 := by
    have h0 : pyRound2 ((0 : ℤ) : ℚ) = 0 := pyRound2_intCast 0
    norm_num at h0
    simpa [calculate_trait_similarity, noTraitPlant] using h0
  exact ⟨h, by rw [h]; norm_num⟩

/-- C3 (amended): self-comparison always returns empty unique-trait sets,
and similarity 100 whenever the record has at least one trait (with an
empty trait set the empty-union rule yields 0 instead); in general the
similarity is shared/union × 100 rounded to two decimals, and 0 when the
union is empty. -/
theorem trait_similarity_spec_amended :
    (∀ A : SPlant, (calculate_trait_similarity A A).unique_to_a = ∅ ∧
      (calculate_trait_similarity A A).unique_to_b = ∅) ∧
    (∀ A : SPlant, A.traits ≠ [] → (calculate_trait_similarity A A).similarity = 100) ∧
    (∀ A B : SPlant, (calculate_trait_similarity A B).similarity =
      pyRound2 (if (A.traits.toFinset ∪ B.traits.toFinset).Nonempty then
        ((A.traits.toFinset ∩ B.traits.toFinset).card : ℚ) /
          ((A.traits.toFinset ∪ B.traits.toFinset).card : ℚ) * 100
      else 0)) ∧
    (∀ A B : SPlant, A.traits.toFinset ∪ B.traits.toFinset = ∅ →
      (calculate_trait_similarity A B).similarity = 0) := by
  refine ⟨fun A => ⟨?_, ?_⟩, fun A hA => ?_, fun A B => rfl, fun A B h => ?_⟩
  · simp [calculate_trait_similarity]
  · simp [calculate_trait_similarity]
  · have hne : A.traits.toFinset.Nonempty := by
      rcases List.exists_mem_of_ne_nil A.traits hA with ⟨x, hx⟩
      exact ⟨x, List.mem_toFinset.mpr hx⟩
    have hcard : ((A.traits.toFinset.card : ℚ)) ≠ 0 :=
      Nat.cast_ne_zero.mpr (Finset.card_pos.mpr hne).ne'
    have h100 : pyRound2 ((100 : ℤ) : ℚ) = 100 := pyRound2_intCast 100
    norm_num at h100
    simp only [calculate_trait_similarity, Finset.inter_self, Finset.union_self]
    rw [if_pos hne, div_self hcard, one_mul]
    exact h100
  · have h0 : pyRound2 ((0 : ℤ) : ℚ) = 0 := pyRound2_intCast 0
    norm_num at h0
    simp only [calculate_trait_similarity, h]
    rw [if_neg (by simp)]
    exact h0

/-- Witness for the amended C3 at a concrete record with three traits. -/
theorem trait_similarity_spec_amended_witness :
    (calculate_trait_similarity
      { id := 1, name := "Common Wheat", scientific_name := "Triticum aestivum",
        zone := "Northern",
        traits := ["drought_resistance", "high_yield", "disease_resistance"] }
      { id := 1, name := "Common Wheat", scientific_name := "Triticum aestivum",
        zone := "Northern",
        traits := ["drought_resistance", "high_yield", "disease_resistance"] }).similarity = 100 :=
  trait_similarity_spec_amended.2.1 _ (by decide)

/-- C9: the chat route returns 400 with an error body and success false
when the JSON body is absent or has no "message" field, and 500 with an
error body and success false when processing the message raises. -/
theorem chat_handler_error_statuses (data : Option (List (String × String)))
    (process : String → Except String String) :
    ((data = none ∨ ∃ fields, data = some fields ∧ List.lookup "message" fields = none) →
      (chat_handler data process).status = 400 ∧
      (chat_handler data process).error.isSome = true ∧
      (chat_handler data process).success = false) ∧
    (∀ fields msg e, data = some fields → List.lookup "message" fields = some msg →
      process msg = Except.error e →
      (chat_handler data process).status = 500 ∧
      (chat_handler data process).error.isSome = true ∧
      (chat_handler data process).success = false) := by
  constructor
  · rintro (rfl | ⟨fields, rfl, hlook⟩)
    · exact ⟨rfl, rfl, rfl⟩
    · simp only [chat_handler]
      split
      · exact ⟨rfl, rfl, rfl⟩
      · rw [hlook]; exact ⟨rfl, rfl, rfl⟩
  · rintro fields msg e rfl hlook hproc
    have hne : fields.isEmpty = false := by
      cases fields with
      | nil => simp at hlook
      | cons a t => rfl
    simp [chat_handler, hne, hlook, hproc]

/-- Witness for C9: a body without "message" gets a 400, and a processing
error on a well-formed body gets a 500. -/
theorem chat_handler_error_statuses_witness :
    ((chat_handler (some [("foo", "1")]) (fun m => Except.ok m)).status = 400 ∧
      (chat_handler (some [("foo", "1")]) (fun m => Except.ok m)).error.isSome = true ∧
      (chat_handler (some [("foo", "1")]) (fun m => Except.ok m)).success = false) ∧
    ((chat_handler (some [("message", "hi")]) (fun _ => Except.error "boom")).status = 500 ∧
      (chat_handler (some [("message", "hi")]) (fun _ => Except.error "boom")).error.isSome = true ∧
      (chat_handler (some [("message", "hi")]) (fun _ => Except.error "boom")).success = false) :=
  ⟨(chat_handler_error_statuses (some [("foo", "1")]) (fun m => Except.ok m)).1
      (Or.inr ⟨[("foo", "1")], rfl, by decide⟩),
   (chat_handler_error_statuses (some [("message", "hi")]) (fun _ => Except.error "boom")).2
      [("message", "hi")] "hi" "boom" rfl (by decide) rfl⟩

/-! ## Helper lemmas for the hybridization prediction claim -/

theorem getp_none_iff (x : Int) :
    get_plant_details x = none ↔ ¬∃ p ∈ SAMPLE_PLANTS, p.id = x := by
  simp [get_plant_details, List.find?_eq_none]

theorem sim_cards : ∀ pa ∈ SAMPLE_PLANTS, ∀ pb ∈ SAMPLE_PLANTS,
    ((pa.traits.toFinset ∩ pb.traits.toFinset).card = 3 ∧
     (pa.traits.toFinset ∪ pb.traits.toFinset).card = 3) ∨
    ((pa.traits.toFinset ∩ pb.traits.toFinset).card = 1 ∧
     (pa.traits.toFinset ∪ pb.traits.toFinset).card = 5) ∨
    ((pa.traits.toFinset ∩ pb.traits.toFinset).card = 0 ∧
     (pa.traits.toFinset ∪ pb.traits.toFinset).card = 6) := by decide

set_option linter.unnecessarySeqFocus false in
theorem sim_value : ∀ pa ∈ SAMPLE_PLANTS, ∀ pb ∈ SAMPLE_PLANTS,
    (calculate_trait_similarity pa pb).similarity = 100 ∨
    (calculate_trait_similarity pa pb).similarity = 20 ∨
    (calculate_trait_similarity pa pb).similarity = 0 := by
  intro pa hpa pb hpb
  have hform : (calculate_trait_similarity pa pb).similarity =
      pyRound2 (if (pa.traits.toFinset ∪ pb.traits.toFinset).Nonempty then
        ((pa.traits.toFinset ∩ pb.traits.toFinset).card : ℚ) /
          ((pa.traits.toFinset ∪ pb.traits.toFinset).card : ℚ) * 100 else 0) := rfl
  rcases sim_cards pa hpa pb hpb with ⟨hc, hu⟩ | ⟨hc, hu⟩ | ⟨hc, hu⟩
  · left
    rw [hform, if_pos (Finset.card_pos.mp (by rw [hu]; norm_num)), hc, hu]
    have h := pyRound2_intCast 100
    norm_num at h ⊢ <;> exact h
  · right; left
    rw [hform, if_pos (Finset.card_pos.mp (by rw [hu]; norm_num)), hc, hu]
    have h := pyRound2_intCast 20
    norm_num at h ⊢ <;> exact h
  · right; right
    rw [hform, if_pos (Finset.card_pos.mp (by rw [hu]; norm_num)), hc, hu]
    have h := pyRound2_intCast 0
    norm_num at h ⊢ <;> exact h

/-- Bounds, integrality and label thresholds of the clamped success rate,
once the clamped value is known to be an integer `k`. -/
theorem predict_fields_core (x : ℚ) (k : ℤ) (hx : min 95 (max 20 x) = (k : ℚ)) :
    20 ≤ roundHalfEven (min 95 (max 20 x)) ∧
    roundHalfEven (min 95 (max 20 x)) ≤ 95 ∧
    ((roundHalfEven (min 95 (max 20 x)) : ℚ) = min 95 (max 20 x)) ∧
    ((if min 95 (max 20 x) ≥ 70 then "High"
      else if min 95 (max 20 x) ≥ 50 then "Moderate" else "Low") = "High" ↔
      70 ≤ roundHalfEven (min 95 (max 20 x))) ∧
    ((if min 95 (max 20 x) ≥ 70 then "High"
      else if min 95 (max 20 x) ≥ 50 then "Moderate" else "Low") = "Moderate" ↔
      50 ≤ roundHalfEven (min 95 (max 20 x)) ∧ roundHalfEven (min 95 (max 20 x)) < 70) ∧
    ((if min 95 (max 20 x) ≥ 70 then "High"
      else if min 95 (max 20 x) ≥ 50 then "Moderate" else "Low") = "Low" ↔
      roundHalfEven (min 95 (max 20 x)) < 50) := by
  have h20 : (20 : ℚ) ≤ min 95 (max 20 x) := le_min (by norm_num) (le_max_left _ _)
  have h95 : min 95 (max 20 x) ≤ 95 := min_le_left _ _
  rw [hx] at h20 h95 ⊢
  rw [roundHalfEven_intCast]
  have h20i : (20 : ℤ) ≤ k := by exact_mod_cast h20
  have h95i : k ≤ 95 := by exact_mod_cast h95
  rcases le_or_lt (70 : ℚ) (k : ℚ) with h70 | h70
  · have h70i : (70 : ℤ) ≤ k := by exact_mod_cast h70
    rw [if_pos (show (k : ℚ) ≥ 70 from h70)]
    refine ⟨h20i, h95i, rfl, ?_, ?_, ?_⟩ <;> simp <;> omega
  · have h70i : k < 70 := by exact_mod_cast h70
    rw [if_neg (show ¬((k : ℚ) ≥ 70) from not_le.mpr h70)]
    rcases le_or_lt (50 : ℚ) (k : ℚ) with h50 | h50
    · have h50i : (50 : ℤ) ≤ k := by exact_mod_cast h50
      rw [if_pos (show (k : ℚ) ≥ 50 from h50)]
      refine ⟨h20i, h95i, rfl, ?_, ?_, ?_⟩ <;> simp <;> omega
    · have h50i : k < 50 := by exact_mod_cast h50
      rw [if_neg (show ¬((k : ℚ) ≥ 50) from not_le.mpr h50)]
      refine ⟨h20i, h95i, rfl, ?_, ?_, ?_⟩ <;> simp <;> omega

/-- The success-rate facts for any catalog pair, by cases on the
similarity value and the zone bonus. -/
theorem predict_fields (pa pb : SPlant)
    (hs : (calculate_trait_similarity pa pb).similarity = 100 ∨
          (calculate_trait_similarity pa pb).similarity = 20 ∨
          (calculate_trait_similarity pa pb).similarity = 0) :
    20 ≤ roundHalfEven (min 95 (max 20 ((calculate_trait_similarity pa pb).similarity +
        if pa.zone = pb.zone then 15 else 0))) ∧
    roundHalfEven (min 95 (max 20 ((calculate_trait_similarity pa pb).similarity +
        if pa.zone = pb.zone then 15 else 0))) ≤ 95 ∧
    ((roundHalfEven (min 95 (max 20 ((calculate_trait_similarity pa pb).similarity +
        if pa.zone = pb.zone then 15 else 0))) : ℚ) =
      min 95 (max 20 ((calculate_trait_similarity pa pb).similarity +
        if pa.zone = pb.zone then 15 else 0))) ∧
    ((if min 95 (max 20 ((calculate_trait_similarity pa pb).similarity +
        if pa.zone = pb.zone then 15 else 0)) ≥ 70 then "High"
      else if min 95 (max 20 ((calculate_trait_similarity pa pb).similarity +
        if pa.zone = pb.zone then 15 else 0)) ≥ 50 then "Moderate" else "Low") = "High" ↔
      70 ≤ roundHalfEven (min 95 (max 20 ((calculate_trait_similarity pa pb).similarity +
        if pa.zone = pb.zone then 15 else 0)))) ∧
    ((if min 95 (max 20 ((calculate_trait_similarity pa pb).similarity +
        if pa.zone = pb.zone then 15 else 0)) ≥ 70 then "High"
      else if min 95 (max 20 ((calculate_trait_similarity pa pb).similarity +
        if pa.zone = pb.zone then 15 else 0)) ≥ 50 then "Moderate" else "Low") = "Moderate" ↔
      50 ≤ roundHalfEven (min 95 (max 20 ((calculate_trait_similarity pa pb).similarity +
        if pa.zone = pb.zone then 15 else 0))) ∧
      roundHalfEven (min 95 (max 20 ((calculate_trait_similarity pa pb).similarity +
        if pa.zone = pb.zone then 15 else 0))) < 70) ∧
    ((if min 95 (max 20 ((calculate_trait_similarity pa pb).similarity +
        if pa.zone = pb.zone then 15 else 0)) ≥ 70 then "High"
      else if min 95 (max 20 ((calculate_trait_similarity pa pb).similarity +
        if pa.zone = pb.zone then 15 else 0)) ≥ 50 then "Moderate" else "Low") = "Low" ↔
      roundHalfEven (min 95 (max 20 ((calculate_trait_similarity pa pb).similarity +
        if pa.zone = pb.zone then 15 else 0))) < 50) := by
  by_cases hz : pa.zone = pb.zone
  · simp only [if_pos hz]
    rcases hs with hs | hs | hs <;> rw [hs]
    · exact predict_fields_core _ 95 (by push_cast; norm_num [min_def, max_def])
    · exact predict_fields_core _ 35 (by push_cast; norm_num [min_def, max_def])
    · exact predict_fields_core _ 20 (by push_cast; norm_num [min_def, max_def])
  · simp only [if_neg hz]
    rcases hs with hs | hs | hs <;> rw [hs]
    · exact predict_fields_core _ 95 (by push_cast; norm_num [min_def, max_def])
    · exact predict_fields_core _ 20 (by push_cast; norm_num [min_def, max_def])
    · exact predict_fields_core _ 20 (by push_cast; norm_num [min_def, max_def])

/-- C10: `predict_hybridization` returns None exactly when one of the two
ids is not in the catalog; otherwise the returned success rate lies in
[20, 95] and equals min(95, max(20, trait similarity + 15-point same-zone
bonus)), and the compatibility label is "High" iff the rate is at least 70,
"Moderate" iff it is in [50, 70), and "Low" iff it is below 50. -/
theorem predict_hybridization_spec (a b : Int) :
    (predict_hybridization a b = none ↔
      (¬∃ p ∈ SAMPLE_PLANTS, p.id = a) ∨ (¬∃ p ∈ SAMPLE_PLANTS, p.id = b)) ∧
    (∀ r, predict_hybridization a b = some r →
      20 ≤ r.success_rate ∧ r.success_rate ≤ 95 ∧
      (∃ pa pb, get_plant_details a = some pa ∧ get_plant_details b = some pb ∧
        (r.success_rate : ℚ) =
          min 95 (max 20 ((calculate_trait_similarity pa pb).similarity +
            if pa.zone = pb.zone then 15 else 0))) ∧
      (r.compatibility = "High" ↔ 70 ≤ r.success_rate) ∧
      (r.compatibility = "Moderate" ↔ 50 ≤ r.success_rate ∧ r.success_rate < 70) ∧
      (r.compatibility = "Low" ↔ r.success_rate < 50)) := by
  constructor
  · unfold predict_hybridization
    rcases ha : get_plant_details a with _ | pa
    · exact iff_of_true rfl (Or.inl ((getp_none_iff a).mp ha))
    · rcases hb : get_plant_details b with _ | pb
      · exact iff_of_true rfl (Or.inr ((getp_none_iff b).mp hb))
      · have ha' : SAMPLE_PLANTS.find? (fun p => p.id == a) = some pa := ha
        have hb' : SAMPLE_PLANTS.find? (fun p => p.id == b) = some pb := hb
        refine iff_of_false (by simp) ?_
        rintro (h | h)
        · exact h ⟨pa, List.mem_of_find?_eq_some ha', by simpa using List.find?_some ha'⟩
        · exact h ⟨pb, List.mem_of_find?_eq_some hb', by simpa using List.find?_some hb'⟩
  · intro r hr
    unfold predict_hybridization at hr
    rcases ha : get_plant_details a with _ | pa
    · rw [ha] at hr; exact absurd hr (by simp)
    · rcases hb : get_plant_details b with _ | pb
      · rw [ha, hb] at hr; exact absurd hr (by simp)
      · rw [ha, hb] at hr
        have hrr : r = _ := (Option.some.inj hr).symm
        subst hrr
        have ha' : SAMPLE_PLANTS.find? (fun p => p.id == a) = some pa := ha
        have hb' : SAMPLE_PLANTS.find? (fun p => p.id == b) = some pb := hb
        have hpa := List.mem_of_find?_eq_some ha'
        have hpb := List.mem_of_find?_eq_some hb'
        obtain ⟨f1, f2, f3, f4, f5, f6⟩ :=
          predict_fields pa pb (sim_value pa hpa pb hpb)
        exact ⟨f1, f2, ⟨pa, pb, rfl, rfl, f3⟩, f4, f5, f6⟩

/-! ## Totality and non-emptiness of the dispatcher -/

/-- A concatenation with a non-empty left part is non-empty. -/
theorem append_str_ne (a b : String) (h : a ≠ "") : a ++ b ≠ "" := by
  cases a with | mk da =>
  cases b with | mk db =>
  intro hc
  apply h
  have hd : da ++ db = ([] : List Char) := congrArg String.data hc
  rcases List.append_eq_nil.mp hd with ⟨rfl, -⟩
  rfl

/-- Deduplication only keeps elements of the underlying list. -/
theorem mem_pyDedupAux (x : String) :
    ∀ (seen l : List String), x ∈ pyDedupAux seen l → x ∈ l := by
  intro seen l
  induction l generalizing seen with
  | nil => intro h; simp [pyDedupAux] at h
  | cons a t ih =>
    intro h
    by_cases ha : a ∈ seen
    · simp only [pyDedupAux, if_pos ha] at h
      exact List.mem_cons_of_mem _ (ih _ h)
    · simp only [pyDedupAux, if_neg ha, List.mem_cons] at h
      rcases h with rfl | h
      · exact List.mem_cons_self _ _
      · exact List.mem_cons_of_mem _ (ih _ h)

/-- Every matched plant name in an intent is the common name of a catalog
plant (the extractor only ever appends `p["commonName"]`). -/
theorem extract_plants_mem (q n : String)
    (hn : n ∈ (extract_keywords q).plants) :
    ∃ p ∈ PLANTS_DATA, p.commonName = n := by
  have hn' : n ∈ pyDedup ((PLANTS_DATA.filter (plantMatches (pyLower q))).map
      (fun p => p.commonName)) := hn
  have hm := mem_pyDedupAux n [] _ hn'
  rcases List.mem_map.mp hm with ⟨p, hp, rfl⟩
  exact ⟨p, List.mem_of_mem_filter hp, rfl⟩

/-- Looking up a common name that belongs to the catalog succeeds. -/
theorem findPlant_found (n : String)
    (h : ∃ p ∈ PLANTS_DATA, p.commonName = n) :
    (findPlantByCommon n).isSome = true := by
  rcases h with ⟨p, hp, rfl⟩
  cases hf : findPlantByCommon p.commonName with
  | some _ => rfl
  | none =>
    have hf' : PLANTS_DATA.find? (fun x => x.commonName == p.commonName) = none := hf
    have := List.find?_eq_none.mp hf' p hp
    simp at this

/-- The fallback pattern `resp if resp else help` never yields "". -/
theorem ite_fallback_ne (resp fb : String) (hfb : fb ≠ "") :
    (if resp = "" then fb else resp) ≠ "" := by
  split
  · exact hfb
  · assumption

/-- The trailing cascade plus fallback always renders a non-empty answer. -/
theorem tailAnswer_ne (kw : Intent) (q : String) : tailAnswer kw q ≠ "" := by
  unfold tailAnswer
  exact ite_fallback_ne _ _ (by decide)

/-- When the short-input block answers, the answer is non-empty. -/
theorem shortAnswerBlock_ne (kw : Intent) (q r : String)
    (h : shortAnswerBlock kw q = some r) : r ≠ "" := by
  unfold shortAnswerBlock at h
  repeat' split at h
  all_goals simp at h
  all_goals subst h
  all_goals first
    | decide
    | (unfold shortPlantSummary; (repeat' apply append_str_ne) ; decide)

/-- When the comparison block answers, the answer is non-empty. -/
theorem comparisonBlock_ne (kw : Intent) (q r : String)
    (h : comparisonBlock kw q = some r) : r ≠ "" := by
  unfold comparisonBlock at h
  repeat' split at h
  all_goals simp at h
  all_goals subst h
  unfold comparisonRender
  repeat' apply append_str_ne
  decide

/-- When the better/which block answers, the answer is non-empty. -/
theorem betterBlock_ne (kw : Intent) (q r : String)
    (h : betterBlock kw q = some r) : r ≠ "" := by
  unfold betterBlock at h
  repeat' split at h
  all_goals simp at h
  all_goals subst h
  all_goals first
    | decide
    | (unfold betterPartnersRender; (repeat' apply append_str_ne) ; decide)
    | ((repeat' apply append_str_ne) ; decide)

/-- When the characteristics block answers, the answer is non-empty. -/
theorem charBlock_ne (kw : Intent) (q r : String)
    (h : charBlock kw q = some r) : r ≠ "" := by
  unfold charBlock at h
  repeat' split at h
  all_goals simp at h
  all_goals subst h
  all_goals first
    | decide
    | (unfold charRender; (repeat' apply append_str_ne) ; decide)

/-- When the per-plant ranking block answers, the answer is non-empty. -/
theorem rankingBlock_ne (kw : Intent) (q r : String)
    (h : rankingBlock kw q = some r) : r ≠ "" := by
  unfold rankingBlock at h
  repeat' split at h
  all_goals simp at h
  all_goals subst h
  all_goals ((repeat' apply append_str_ne) ; decide)

/-- The pairwise-cross rendering is non-empty whenever at least two plants
matched, because every matched plant name is found in the catalog. -/
theorem crossRender_ne (kw : Intent)
    (hall : ∀ n ∈ kw.plants, (findPlantByCommon n).isSome = true)
    (h2 : 2 ≤ kw.plants.length) : crossRender kw ≠ "" := by
  unfold crossRender
  split
  case h_2 heq =>
    exfalso
    cases hp : kw.plants with
    | nil => rw [hp] at h2; simp at h2
    | cons a t =>
      cases ht : t with
      | nil => rw [hp, ht] at h2; simp at h2
      | cons b t2 => exact heq a b t2 (by rw [hp, ht])
  case h_1 pl0 pl1 rest heq =>
    have h0 : (findPlantByCommon pl0).isSome = true :=
      hall pl0 (by rw [heq]; exact List.mem_cons_self _ _)
    have h1 : (findPlantByCommon pl1).isSome = true :=
      hall pl1 (by rw [heq]; simp)
    rcases Option.isSome_iff_exists.mp h0 with ⟨p1, hp1⟩
    rcases Option.isSome_iff_exists.mp h1 with ⟨p2, hp2⟩
    rw [hp1, hp2]
    simp only []
    repeat' split
    all_goals ((repeat' apply append_str_ne) ; decide)

/-- The breeding block always renders a non-empty answer. -/
theorem breedingBlock_ne (kw : Intent) (q : String)
    (hall : ∀ n ∈ kw.plants, (findPlantByCommon n).isSome = true) :
    breedingBlock kw q ≠ "" := by
  unfold breedingBlock
  split
  · unfold hybridRender
    repeat' apply append_str_ne
    decide
  · split
    · next hc =>
      have h2 : 2 ≤ kw.plants.length := by
        rcases Bool.and_eq_true_iff.mp hc with ⟨-, hlen⟩
        exact of_decide_eq_true hlen
      exact crossRender_ne kw hall h2
    · split
      · unfold geneticsRender
        repeat' apply append_str_ne
        decide
      · split
        · decide
        · repeat' split
          all_goals first
            | decide
            | (unfold zoneTipsRender; (repeat' apply append_str_ne) ; decide)

/-- C1: for every input string the dispatcher terminates with a non-empty
answer — the embedding is a total function, every returning branch renders
a string with a non-empty literal head (the one branch that could return
"" needs every matched plant name to resolve in the catalog, which
`extract_plants_mem` guarantees), and otherwise the final fallback branch
produces the static help text. -/
theorem answer_question_total_nonempty (question : String) :
    answer_question question ≠ "" := by
  have hall : ∀ n ∈ (extract_keywords question).plants,
      (findPlantByCommon n).isSome = true := fun n hn =>
    findPlant_found n (extract_plants_mem question n hn)
  unfold answer_question
  simp only []
  cases hs : shortAnswerBlock (extract_keywords question) question with
  | some r => exact shortAnswerBlock_ne _ _ _ hs
  | none =>
    simp only []
    split
    · exact breedingBlock_ne _ _ hall
    · cases hc : comparisonBlock (extract_keywords question) (pyLower question) with
      | some r => exact comparisonBlock_ne _ _ _ hc
      | none =>
        simp only []
        cases hb : betterBlock (extract_keywords question) (pyLower question) with
        | some r => exact betterBlock_ne _ _ _ hb
        | none =>
          simp only []
          cases hch : charBlock (extract_keywords question) (pyLower question) with
          | some r => exact charBlock_ne _ _ _ hch
          | none =>
            simp only []
            cases hrk : rankingBlock (extract_keywords question) (pyLower question) with
            | some r => exact rankingBlock_ne _ _ _ hrk
            | none => exact tailAnswer_ne _ _
